import Mathlib

/-!
Verification of the build-script patcher (`build_assimp.py`).

The script reads a shell build script line by line, rewrites any line that
starts with one of two architecture flag names, writes the result to a
temporary sibling file, invokes that file with `sh`, and removes it.

Lines are modelled as `List Char` (Python file iteration yields each line
with its trailing newline).  The effectful top level is embedded as a pure
function from the abstract inputs (the source file's lines, when the file
exists, and the exit status of the invoked child process) to a record of
the observable outcomes.
-/

namespace BuildAssimp

/-- `arch_flag_name_device = "BUILD_ARCHS_DEVICE"` from the script. -/
def arch_flag_name_device : List Char := "BUILD_ARCHS_DEVICE".toList

/-- `arch_flag_name_simulator = "BUILD_ARCHS_SIMULATOR"` from the script. -/
def arch_flag_name_simulator : List Char := "BUILD_ARCHS_SIMULATOR".toList

/-- `valid_archs_device = "arm64e arm64"` from the script. -/
def valid_archs_device : List Char := "arm64e arm64".toList

/-- `valid_archs_simulator = "x86_64"` from the script. -/
def valid_archs_simulator : List Char := "x86_64".toList

/-- `check_line_from_parts(left, right)`: the Python function reads the
current loop variable `line`; here that global is passed explicitly.
`line.startswith(left)` is the prefix test `List.isPrefixOf`;
on a match the function returns `left + '="' + right + '"\n'`,
otherwise it returns `line`. -/
def check_line_from_parts (line left right : List Char) : List Char :=
  if left.isPrefixOf line then
    left ++ "=\"".toList ++ right ++ "\"\n".toList
  else
    line

/-- One iteration of the `for line in lines` loop: the device pair is
applied first, then the simulator pair is applied to the result. -/
def rewrite_line_full (line : List Char) : List Char :=
  check_line_from_parts
    (check_line_from_parts line arch_flag_name_device valid_archs_device)
    arch_flag_name_simulator valid_archs_simulator

/-- The error taxonomy of the run, named as in the design document. -/
inductive RunError where
  | fileAccessError : RunError
  | subprocessError : RunError
deriving DecidableEq

/-- Observable outcome of one run of the script:
whether it aborted with an error, whether the temporary file was ever
created, the lines written to it, the exit status returned by the child
process (when one was spawned), and whether the temporary file still
exists once the run is over. -/
structure RunTrace where
  err : Option RunError
  tempCreated : Bool
  tempContent : List (List Char)
  childExitCode : Option Int
  tempExistsAfter : Bool
deriving DecidableEq

/-- The whole top-level flow of `build_assimp.py`.

`source` is `none` when the source build script does not exist: then
`open(build_file)` raises before `open(build_temp_file, 'w')` runs, so no
temporary file is created.  Otherwise every line is rewritten by the loop
body, the result is written to the temporary file, the child process is
invoked — `call` RETURNS its exit status `exitCode` and the script
discards that value — and `os.remove` deletes the temporary file. -/
def patchAndBuild (source : Option (List (List Char))) (exitCode : Int) :
    RunTrace :=
  match source with
  | none => ⟨some RunError.fileAccessError, false, [], none, false⟩
  | some lines =>
      ⟨none, true, lines.map rewrite_line_full, some exitCode, false⟩

/-- Independent per-line check, following the design document's words:
each of the two flag prefixes is tested against the ORIGINAL line, not
against the result of the other rewrite. -/
def rewrite_line_independent (line : List Char) : List Char :=
  if arch_flag_name_device.isPrefixOf line then
    check_line_from_parts line arch_flag_name_device valid_archs_device
  else if arch_flag_name_simulator.isPrefixOf line then
    check_line_from_parts line arch_flag_name_simulator valid_archs_simulator
  else
    line

/-- A list is unchanged when the prefix it is a prefix of is itself. -/
theorem isPrefixOf_append_self (l r : List Char) :
    l.isPrefixOf (l ++ r) = true := by
  induction l with
  | nil => simp
  | cons a as ih => simp [List.isPrefixOf_cons₂, ih]

/-- A successful prefix test recovers the prefix by taking its length. -/
theorem take_of_isPrefixOf :
    ∀ (p l : List Char), p.isPrefixOf l = true → l.take p.length = p
  | [], _, _ => by simp
  | _ :: _, [], h => by simp at h
  | a :: p, b :: l, h => by
      rw [List.isPrefixOf_cons₂] at h
      simp only [Bool.and_eq_true, beq_iff_eq] at h
      simp [List.take, take_of_isPrefixOf p l h.2, h.1]

/-- No line starts with both flag names: the two names disagree at
position 12, so a common extension is impossible. -/
theorem no_line_has_both_flags (line : List Char) :
    (arch_flag_name_device.isPrefixOf line &&
      arch_flag_name_simulator.isPrefixOf line) = false := by
  cases hd : arch_flag_name_device.isPrefixOf line with
  | false => simp [hd]
  | true =>
      cases hs : arch_flag_name_simulator.isPrefixOf line with
      | false => simp [hd, hs]
      | true =>
        exfalso
        have h1 := take_of_isPrefixOf _ _ hd
        have h2 := take_of_isPrefixOf _ _ hs
        have hmin : arch_flag_name_device.length =
            min arch_flag_name_device.length arch_flag_name_simulator.length := by
          decide
        have : arch_flag_name_simulator.take arch_flag_name_device.length =
            arch_flag_name_device := by
          rw [← h2, List.take_take, ← hmin, h1]
        exact absurd this (by decide)

/-- C1: `rewriteLine(line, flagName, value)` returns
`flagName + '="' + value + '"' + newline` when `line` starts with
`flagName`, and returns `line` unchanged byte for byte otherwise. -/
theorem check_line_rewrites_or_keeps (line left right : List Char) :
    (left.isPrefixOf line = true →
      check_line_from_parts line left right =
        left ++ "=\"".toList ++ right ++ "\"\n".toList) ∧
    (left.isPrefixOf line = false →
      check_line_from_parts line left right = line) := by
  constructor <;> intro h <;> simp [check_line_from_parts, h]

/-- Witness for C1: both branches at concrete inputs. -/
theorem check_line_rewrites_or_keeps_witness :
    check_line_from_parts "BUILD_ARCHS_DEVICE=armv7\n".toList
        arch_flag_name_device valid_archs_device =
      "BUILD_ARCHS_DEVICE=\"arm64e arm64\"\n".toList ∧
    check_line_from_parts "cd ../../\n".toList
        arch_flag_name_device valid_archs_device = "cd ../../\n".toList := by
  constructor
  · exact ((check_line_rewrites_or_keeps "BUILD_ARCHS_DEVICE=armv7\n".toList
      arch_flag_name_device valid_archs_device).1 (by decide)).trans (by decide)
  · exact (check_line_rewrites_or_keeps "cd ../../\n".toList
      arch_flag_name_device valid_archs_device).2 (by decide)

/-- C2: the code does NOT fail on a non-zero child exit status.  `call`
returns the status and the script discards it: with the child exiting 1,
the run records no error, the exit code is observed as 1, and the
temporary file is nevertheless removed.  This contradicts the claim that
a non-zero exit surfaces as `SubprocessError`. -/
theorem call_discards_nonzero_exit :
    (patchAndBuild (some ["echo build\n".toList]) 1).err = none ∧
    (patchAndBuild (some ["echo build\n".toList]) 1).childExitCode = some 1 ∧
    (patchAndBuild (some ["echo build\n".toList]) 1).tempExistsAfter = false :=
  ⟨rfl, rfl, rfl⟩

/-- C3: for every input script (any sequence of lines, including the
empty one), the rewritten output written to the temporary file has
exactly as many lines as the input. -/
theorem patchAndBuild_preserves_line_count
    (lines : List (List Char)) (exitCode : Int) :
    (patchAndBuild (some lines) exitCode).tempContent.length = lines.length := by
  simp [patchAndBuild]

/-- C4: the rewritten line at any position equals the source line at that
position whenever the source line starts with neither
`BUILD_ARCHS_DEVICE` nor `BUILD_ARCHS_SIMULATOR`. -/
theorem patchAndBuild_frame
    (lines : List (List Char)) (exitCode : Int) (i : Nat) (l : List Char)
    (hget : lines[i]? = some l)
    (hdev : arch_flag_name_device.isPrefixOf l = false)
    (hsim : arch_flag_name_simulator.isPrefixOf l = false) :
    (patchAndBuild (some lines) exitCode).tempContent[i]? = some l := by
  simp [patchAndBuild, hget, rewrite_line_full, check_line_from_parts,
    hdev, hsim]

/-- Witness for C4: a non-flag line passes through at its position. -/
theorem patchAndBuild_frame_witness :
    (patchAndBuild (some ["#!/bin/sh\n".toList, "make\n".toList]) 0).tempContent[1]? =
      some "make\n".toList :=
  patchAndBuild_frame ["#!/bin/sh\n".toList, "make\n".toList] 0 1
    "make\n".toList (by decide) (by decide) (by decide)

/-- C5: the full per-line rewrite (device pair then simulator pair, with
the hard-coded names and values) is idempotent. -/
theorem rewrite_line_full_idempotent (line : List Char) :
    rewrite_line_full (rewrite_line_full line) = rewrite_line_full line := by
  cases hd : arch_flag_name_device.isPrefixOf line with
  | true =>
      have h : rewrite_line_full line =
          "BUILD_ARCHS_DEVICE=\"arm64e arm64\"\n".toList := by
        simp [rewrite_line_full, check_line_from_parts, hd]
        decide
      rw [h]; decide
  | false =>
      cases hs : arch_flag_name_simulator.isPrefixOf line with
      | true =>
          have h : rewrite_line_full line =
              "BUILD_ARCHS_SIMULATOR=\"x86_64\"\n".toList := by
            simp [rewrite_line_full, check_line_from_parts, hd, hs]
            decide
          rw [h]; decide
      | false =>
          have h : rewrite_line_full line = line := by
            simp [rewrite_line_full, check_line_from_parts, hd, hs]
          rw [h, h]

/-- C6: applying the device rewrite and then the simulator rewrite to its
result equals checking the two prefixes independently on the original
line, and no line starts with both flag names. -/
theorem rewrite_seq_eq_independent (line : List Char) :
    rewrite_line_full line = rewrite_line_independent line ∧
    (arch_flag_name_device.isPrefixOf line &&
      arch_flag_name_simulator.isPrefixOf line) = false := by
  refine ⟨?_, no_line_has_both_flags line⟩
  cases hd : arch_flag_name_device.isPrefixOf line with
  | true =>
      have hboth := no_line_has_both_flags line
      rw [hd] at hboth
      simp only [Bool.true_and] at hboth
      simp [rewrite_line_full, rewrite_line_independent,
        check_line_from_parts, hd, hboth]
      decide
  | false =>
      cases hs : arch_flag_name_simulator.isPrefixOf line with
      | true =>
          simp [rewrite_line_full, rewrite_line_independent,
            check_line_from_parts, hd, hs]
      | false =>
          simp [rewrite_line_full, rewrite_line_independent,
            check_line_from_parts, hd, hs]

/-- C7: matching is a pure prefix test: any line that begins with the
flag name character sequence — in particular one where the flag name is
a proper prefix of a longer identifier — is replaced. -/
theorem check_line_rewrites_longer_identifier
    (flag suffix value : List Char) :
    check_line_from_parts (flag ++ suffix) flag value =
      flag ++ "=\"".toList ++ value ++ "\"\n".toList := by
  simp [check_line_from_parts, isPrefixOf_append_self]

/-- C8: when the source build script is missing, the run fails with
`FileAccessError` and no temporary file is ever created: the temp path is
opened for writing only after the source file opened successfully. -/
theorem missing_source_fileAccessError (exitCode : Int) :
    (patchAndBuild none exitCode).err = some RunError.fileAccessError ∧
    (patchAndBuild none exitCode).tempCreated = false :=
  ⟨rfl, rfl⟩

/-- C9: any input script containing the line `BUILD_ARCHS_DEVICE=arm64`
before the line `BUILD_ARCHS_SIMULATOR=i386` (each newline-terminated)
yields a temp file with `BUILD_ARCHS_DEVICE="arm64e arm64"` and
`BUILD_ARCHS_SIMULATOR="x86_64"` at those same positions, hence in the
same relative order, and the temp file is gone when the run is over. -/
theorem end_to_end_scenario
    (lines : List (List Char)) (exitCode : Int) (i j : Nat)
    (hij : i < j)
    (hi : lines[i]? = some "BUILD_ARCHS_DEVICE=arm64\n".toList)
    (hj : lines[j]? = some "BUILD_ARCHS_SIMULATOR=i386\n".toList) :
    (patchAndBuild (some lines) exitCode).tempContent[i]? =
        some "BUILD_ARCHS_DEVICE=\"arm64e arm64\"\n".toList ∧
    (patchAndBuild (some lines) exitCode).tempContent[j]? =
        some "BUILD_ARCHS_SIMULATOR=\"x86_64\"\n".toList ∧
    (patchAndBuild (some lines) exitCode).tempExistsAfter = false := by
  refine ⟨?_, ?_, rfl⟩
  · simp [patchAndBuild, hi]
    decide
  · simp [patchAndBuild, hj]
    decide

/-- Witness for C9: the two-line script, child exiting 0. -/
theorem end_to_end_scenario_witness :
    (patchAndBuild (some ["BUILD_ARCHS_DEVICE=arm64\n".toList,
        "BUILD_ARCHS_SIMULATOR=i386\n".toList]) 0).tempContent[0]? =
      some "BUILD_ARCHS_DEVICE=\"arm64e arm64\"\n".toList ∧
    (patchAndBuild (some ["BUILD_ARCHS_DEVICE=arm64\n".toList,
        "BUILD_ARCHS_SIMULATOR=i386\n".toList]) 0).tempContent[1]? =
      some "BUILD_ARCHS_SIMULATOR=\"x86_64\"\n".toList ∧
    (patchAndBuild (some ["BUILD_ARCHS_DEVICE=arm64\n".toList,
        "BUILD_ARCHS_SIMULATOR=i386\n".toList]) 0).tempExistsAfter = false :=
  end_to_end_scenario ["BUILD_ARCHS_DEVICE=arm64\n".toList,
    "BUILD_ARCHS_SIMULATOR=i386\n".toList] 0 0 1 (by decide)
    (by decide) (by decide)

/-- C10: the output of a matched line depends only on the flag name and
the replacement value — two lines that both start with the flag produce
identical outputs — and that output always ends with a newline. -/
theorem matched_output_independent_of_line
    (l1 l2 left right : List Char)
    (h1 : left.isPrefixOf l1 = true) (h2 : left.isPrefixOf l2 = true) :
    check_line_from_parts l1 left right = check_line_from_parts l2 left right ∧
    ∃ ys, check_line_from_parts l1 left right = ys ++ ['\n'] := by
  refine ⟨by simp [check_line_from_parts, h1, h2], ?_⟩
  refine ⟨left ++ "=\"".toList ++ right ++ ['"'], ?_⟩
  simp [check_line_from_parts, h1]

/-- Witness for C10: two different device-flag lines rewrite alike. -/
theorem matched_output_independent_of_line_witness :
    check_line_from_parts "BUILD_ARCHS_DEVICE=armv7s\n".toList
        arch_flag_name_device valid_archs_device =
      check_line_from_parts "BUILD_ARCHS_DEVICE_EXTRA=none # comment\n".toList
        arch_flag_name_device valid_archs_device ∧
    ∃ ys, check_line_from_parts "BUILD_ARCHS_DEVICE=armv7s\n".toList
        arch_flag_name_device valid_archs_device = ys ++ ['\n'] :=
  matched_output_independent_of_line
    "BUILD_ARCHS_DEVICE=armv7s\n".toList
    "BUILD_ARCHS_DEVICE_EXTRA=none # comment\n".toList
    arch_flag_name_device valid_archs_device (by decide) (by decide)

end BuildAssimp
